import Mathlib

set_option maxRecDepth 10000

/-!
Verification development for the timetable optimizer
(src/backend/scripts/timetable_optimizer.py).

The script builds a CP-SAT model: boolean schedule variables
`schedule[subject][day][period]`, boolean room-assignment variables
`room[subject][day][period][room]` (created only for compatible room types),
constraint families C1-C8, a gap-penalty objective, and a solution extractor.
The external solver is a black box that returns a satisfying assignment of
the model (OPTIMAL/FEASIBLE) or INFEASIBLE/UNKNOWN.  We embed the model as a
decidable satisfaction predicate on assignments, mirroring the Python loops
that emit the constraints, and embed the extraction and status-dispatch
logic as executable functions.
-/

namespace Timetable

/-- Room type, `room['type']` in the input payload: classroom or laboratory. -/
inductive RoomType where
  | classroom
  | laboratory
deriving DecidableEq

/-- Subject record from the input payload (timetable_optimizer.py uses
`id`, `teacher_id`, `is_lab`, `max_periods_per_week`, `max_periods_per_day`). -/
structure Subject where
  id : Nat
  teacher_id : Nat
  is_lab : Bool
  max_periods_per_week : Nat
  max_periods_per_day : Nat
deriving DecidableEq

/-- Room record from the input payload. -/
structure Room where
  id : Nat
  type : RoomType
deriving DecidableEq

/-- Raw value of `constraints['morning_periods']` / `['evening_periods']`:
a Python int, a list/tuple of ints, or anything else. -/
inductive PeriodSpec where
  | count (n : Int)
  | idx (l : List Int)
  | other
deriving DecidableEq

/-- Default for `morning_periods` (timetable_optimizer.py line 41). -/
def defaultMorningList : List Int := [0, 1, 2, 3]

/-- Default for `evening_periods` (timetable_optimizer.py line 42). -/
def defaultEveningList : List Int := [4, 5, 6, 7]

/-- Lines 61-62: keep indices inside `[0, PERIODS)` and sort
(`sorted([p for p in L if 0 <= p < self.PERIODS])`). -/
def sortPeriodIdx (PERIODS : Nat) (l : List Int) : List Int :=
  List.insertionSort (· ≤ ·) (l.filter fun p => decide (0 ≤ p) && decide (p < (PERIODS : Int)))

/-- Lines 44-62 of `TimetableOptimizer.__init__`: normalize
`morning_periods`/`evening_periods` to explicit index lists.  The count
interpretation is used only when BOTH raw values are ints
(`isinstance(raw_morning, int) and isinstance(raw_evening, int)`);
otherwise a list/tuple is used as given and any other value falls back to
the default list.  Both lists are then bounds-filtered and sorted. -/
def normalize_period_lists (PERIODS : Nat) (rawM rawE : PeriodSpec) : List Int × List Int :=
  match rawM, rawE with
  | .count m, .count e =>
      let mlen := min PERIODS (Int.toNat (max 0 m))
      let ml : List Int := (List.range mlen).map Int.ofNat
      let elen := min PERIODS (mlen + Int.toNat (max 0 e)) - mlen
      let el : List Int := (List.range' mlen elen).map Int.ofNat
      (sortPeriodIdx PERIODS ml, sortPeriodIdx PERIODS el)
  | rm, re =>
      let ml := match rm with | .idx l => l | _ => defaultMorningList
      let el := match re with | .idx l => l | _ => defaultEveningList
      (sortPeriodIdx PERIODS ml, sortPeriodIdx PERIODS el)

/-- Normalized configuration held by the optimizer: `DAYS`, `PERIODS`,
`lab_duration`, the normalized morning/evening period lists, the teacher
daily cap (default 2) and the two constraint toggles (default true). -/
structure Config where
  DAYS : Nat
  PERIODS : Nat
  lab_duration : Nat
  morning : List Nat
  evening : List Nat
  max_teacher_sessions_per_day : Nat
  enforce_lab_continuity : Bool
  no_lab_first_period : Bool
deriving DecidableEq

/-- One solve's input: subjects, rooms and normalized constraints. -/
structure Input where
  subjects : List Subject
  rooms : List Room
  cfg : Config
deriving DecidableEq

/-- An assignment of the model's boolean variables: `sched sid d p` is
`schedule_vars[sid][d][p]` and `room sid d p rid` is
`room_assignment[sid][d][p][rid]`.  Only the tuples the model actually
creates variables for are ever consulted by the constraint predicates. -/
structure Asg where
  sched : Nat → Nat → Nat → Bool
  room : Nat → Nat → Nat → Nat → Bool

/-- Numeric value of a boolean variable. -/
def btn (b : Bool) : Nat := if b then 1 else 0

/-- Lines 110-114 of `create_variables`: a room-assignment variable exists
iff the room type matches the subject's lab flag. -/
def compatible (s : Subject) (r : Room) : Bool :=
  (s.is_lab && (r.type == RoomType.laboratory)) || (!s.is_lab && (r.type == RoomType.classroom))

/-- Ids of the rooms a subject has room-assignment variables for, in the
rooms list's order (the iteration order of the Python dict). -/
def compat_room_ids (inp : Input) (s : Subject) : List Nat :=
  (inp.rooms.filter fun r => compatible s r).map (fun r => r.id)

/-- Sum of a subject's schedule variables over one day. -/
def subjectDaySum (inp : Input) (a : Asg) (sid d : Nat) : Nat :=
  ((List.range inp.cfg.PERIODS).map fun p => btn (a.sched sid d p)).sum

/-- Sum of a subject's schedule variables over the whole week. -/
def subjectWeekSum (inp : Input) (a : Asg) (sid : Nat) : Nat :=
  ((List.range inp.cfg.DAYS).map fun d => subjectDaySum inp a sid d).sum

/-- Sum of a subject's room-assignment variables at one (day, period). -/
def roomSum (inp : Input) (a : Asg) (s : Subject) (d p : Nat) : Nat :=
  ((compat_room_ids inp s).map fun rid => btn (a.room s.id d p rid)).sum

/-- Lines 124-135 of `add_basic_constraints`: each subject's weekly schedule
sum equals `max_periods_per_week` (an equality, not an upper bound). -/
def weekly_counts_ok (inp : Input) (a : Asg) : Bool :=
  inp.subjects.all fun s => subjectWeekSum inp a s.id == s.max_periods_per_week

/-- Lines 137-148: per subject and day, at most `max_periods_per_day`. -/
def daily_caps_ok (inp : Input) (a : Asg) : Bool :=
  inp.subjects.all fun s => (List.range inp.cfg.DAYS).all fun d =>
    decide (subjectDaySum inp a s.id d ≤ s.max_periods_per_day)

/-- Lines 150-163: room-schedule coupling.  The equality
`sum(room_assignments) == schedule_var` is added ONLY when the subject has
at least one compatible room (`if room_assignments:`); a subject with no
compatible room gets no constraint at all. -/
def room_coupling_ok (inp : Input) (a : Asg) : Bool :=
  inp.subjects.all fun s => (List.range inp.cfg.DAYS).all fun d =>
    (List.range inp.cfg.PERIODS).all fun p =>
      (compat_room_ids inp s).isEmpty ||
        (roomSum inp a s d p == btn (a.sched s.id d p))

/-- Subjects holding a room-assignment variable for room `r`. -/
def room_users (inp : Input) (r : Room) : List Subject :=
  inp.subjects.filter fun s => compatible s r

/-- `add_constraint_c1_room_conflicts`: per room and slot, at most one user
(constraint emitted only when more than one subject can use the room). -/
def c1_room_conflicts_ok (inp : Input) (a : Asg) : Bool :=
  inp.rooms.all fun r => (List.range inp.cfg.DAYS).all fun d =>
    (List.range inp.cfg.PERIODS).all fun p =>
      decide ((room_users inp r).length ≤ 1) ||
        decide ((((room_users inp r).map fun s => btn (a.room s.id d p r.id)).sum) ≤ 1)

/-- `add_constraint_c2_session_separation`: for subjects needing >= 4 periods
per week, at most 2 sessions in the morning list and 2 in the evening list
per day (each inequality only when its list is non-empty). -/
def c2_session_separation_ok (inp : Input) (a : Asg) : Bool :=
  inp.subjects.all fun s =>
    decide (s.max_periods_per_week < 4) ||
      (List.range inp.cfg.DAYS).all fun d =>
        (inp.cfg.morning.isEmpty ||
          decide (((inp.cfg.morning.map fun p => btn (a.sched s.id d p)).sum) ≤ 2)) &&
        (inp.cfg.evening.isEmpty ||
          decide (((inp.cfg.evening.map fun p => btn (a.sched s.id d p)).sum) ≤ 2))

/-- The subjects taught by one teacher (the Python code groups subjects into
`teacher_subjects` by `teacher_id`). -/
def teacher_subjects (inp : Input) (tid : Nat) : List Subject :=
  inp.subjects.filter fun s => s.teacher_id == tid

/-- `add_constraint_c3_teacher_sessions`: per teacher and day, the total
sessions of all that teacher's subjects is at most the configured cap. -/
def c3_teacher_sessions_ok (inp : Input) (a : Asg) : Bool :=
  inp.subjects.all fun s0 => (List.range inp.cfg.DAYS).all fun d =>
    decide ((((teacher_subjects inp s0.teacher_id).map
      fun s => subjectDaySum inp a s.id d).sum) ≤ inp.cfg.max_teacher_sessions_per_day)

/-- `add_constraint_c4_lab_continuity` (lines 259-305): when enabled, for
each lab subject and day, (a) for every window start
`st in range(PERIODS - lab_duration + 1)` and offset `1..lab_duration-1`,
`schedule[st+off] >= schedule[st]`; (b) for every interior period
`p in range(1, PERIODS-1)`, `schedule[p-1] + schedule[p+1] >= schedule[p]`. -/
def c4_lab_continuity_ok (inp : Input) (a : Asg) : Bool :=
  !inp.cfg.enforce_lab_continuity ||
    inp.subjects.all fun s => !s.is_lab ||
      (List.range inp.cfg.DAYS).all fun d =>
        ((List.range ((inp.cfg.PERIODS + 1) - inp.cfg.lab_duration)).all fun st =>
          (List.range' 1 (inp.cfg.lab_duration - 1)).all fun off =>
            decide (btn (a.sched s.id d st) ≤ btn (a.sched s.id d (st + off)))) &&
        ((List.range' 1 (inp.cfg.PERIODS - 2)).all fun p =>
          decide (btn (a.sched s.id d p) ≤
            btn (a.sched s.id d (p - 1)) + btn (a.sched s.id d (p + 1))))

/-- `add_constraint_c5_teacher_conflicts`: per teacher with at least two
subjects, per slot, at most one of that teacher's subjects is scheduled. -/
def c5_teacher_conflicts_ok (inp : Input) (a : Asg) : Bool :=
  inp.subjects.all fun s0 =>
    decide ((teacher_subjects inp s0.teacher_id).length ≤ 1) ||
      (List.range inp.cfg.DAYS).all fun d => (List.range inp.cfg.PERIODS).all fun p =>
        decide ((((teacher_subjects inp s0.teacher_id).map
          fun s => btn (a.sched s.id d p)).sum) ≤ 1)

/-- `add_constraint_c6_no_lab_first_period`: when enabled, each lab subject
is forced to 0 at the first index of the normalized morning list and at the
first index of the normalized evening list (when those lists are non-empty). -/
def c6_no_lab_first_period_ok (inp : Input) (a : Asg) : Bool :=
  !inp.cfg.no_lab_first_period ||
    inp.subjects.all fun s => !s.is_lab ||
      (List.range inp.cfg.DAYS).all fun d =>
        (match inp.cfg.morning.head? with
          | none => true
          | some m0 => !a.sched s.id d m0) &&
        (match inp.cfg.evening.head? with
          | none => true
          | some e0 => !a.sched s.id d e0)

/-- `add_constraint_c7_no_lab_clashes`: for every ordered pair of lab
subjects with `s1.id < s2.id` and every laboratory room, the two
room-assignment variables for that room sum to at most 1 per slot. -/
def c7_no_lab_clashes_ok (inp : Input) (a : Asg) : Bool :=
  inp.subjects.all fun s1 => !s1.is_lab ||
    inp.subjects.all fun s2 =>
      decide (s2.id ≤ s1.id) || !s2.is_lab ||
        (List.range inp.cfg.DAYS).all fun d => (List.range inp.cfg.PERIODS).all fun p =>
          (inp.rooms.filter fun r => r.type == RoomType.laboratory).all fun r =>
            decide (btn (a.room s1.id d p r.id) + btn (a.room s2.id d p r.id) ≤ 1)

/-- Sum of all subjects' schedule variables at one slot. -/
def slotSum (inp : Input) (a : Asg) (d p : Nat) : Nat :=
  (inp.subjects.map fun s => btn (a.sched s.id d p)).sum

/-- `add_constraint_c8_single_subject_per_slot`: per slot, at most one
subject in the whole department (emitted only when there is more than one
subject). -/
def c8_single_subject_per_slot_ok (inp : Input) (a : Asg) : Bool :=
  (List.range inp.cfg.DAYS).all fun d => (List.range inp.cfg.PERIODS).all fun p =>
    decide (inp.subjects.length ≤ 1) || decide (slotSum inp a d p ≤ 1)

/-- Conjunction of every hard constraint `add_all_constraints` adds: an
assignment satisfies the CP-SAT model iff this predicate holds, so a sound
and complete solver returns OPTIMAL/FEASIBLE on input `inp` iff some
assignment satisfies it. -/
def satisfies_all (inp : Input) (a : Asg) : Bool :=
  weekly_counts_ok inp a && daily_caps_ok inp a && room_coupling_ok inp a &&
    c1_room_conflicts_ok inp a && c2_session_separation_ok inp a &&
    c3_teacher_sessions_ok inp a && c4_lab_continuity_ok inp a &&
    c5_teacher_conflicts_ok inp a && c6_no_lab_first_period_ok inp a &&
    c7_no_lab_clashes_ok inp a && c8_single_subject_per_slot_ok inp a

/-- The auxiliary variables of `add_optimization_objectives`: a boolean gap
indicator per (subject, day, interior period) and an integer daily-load
variable per day. -/
structure ObjAsg where
  gap : Nat → Nat → Nat → Bool
  load : Nat → Nat

/-- Total of all subjects' schedule variables on one day (`daily_load`'s
defining sum, lines 468-478). -/
def daySum (inp : Input) (a : Asg) (d : Nat) : Nat :=
  (inp.subjects.map fun s => subjectDaySum inp a s.id d).sum

/-- Lines 451-465: for every subject, day and `p in range(1, PERIODS-1)`,
`gap_var >= curr - prev - next` (an integer inequality over 0/1 values). -/
def gap_constraints_ok (inp : Input) (a : Asg) (g : ObjAsg) : Bool :=
  inp.subjects.all fun s => (List.range inp.cfg.DAYS).all fun d =>
    (List.range' 1 (inp.cfg.PERIODS - 2)).all fun p =>
      decide ((btn (a.sched s.id d p) : Int) - btn (a.sched s.id d (p - 1)) -
        btn (a.sched s.id d (p + 1)) ≤ (btn (g.gap s.id d p) : Int))

/-- Lines 467-479: each day's load variable equals that day's total
scheduled-period count (`daily_load == sum(day_periods)`). -/
def load_constraints_ok (inp : Input) (a : Asg) (g : ObjAsg) : Bool :=
  (List.range inp.cfg.DAYS).all fun d => g.load d == daySum inp a d

/-- All constraints `add_optimization_objectives` adds for its auxiliary
variables. -/
def objective_constraints_ok (inp : Input) (a : Asg) (g : ObjAsg) : Bool :=
  gap_constraints_ok inp a g && load_constraints_ok inp a g

/-- The expression passed to `Minimize` (line 483): the sum of all gap
indicator variables and nothing else; the daily-load variables do not
appear in it. -/
def objective_value (inp : Input) (g : ObjAsg) : Nat :=
  (inp.subjects.map fun s =>
    ((List.range inp.cfg.DAYS).map fun d =>
      ((List.range' 1 (inp.cfg.PERIODS - 2)).map fun p => btn (g.gap s.id d p)).sum).sum).sum

/-- One emitted timetable entry (`extract_solution`, lines 572-580). -/
structure Session where
  day : Nat
  time_slot : Nat
  subject_id : Nat
  teacher_id : Nat
  room_id : Nat
  is_lab_session : Bool
  lab_duration : Nat
deriving DecidableEq

/-- Lines 565-569 of `extract_solution`: scan the subject's room-assignment
dict in order and return the first room whose variable is 1. -/
def find_assigned_room (inp : Input) (a : Asg) (s : Subject) (d p : Nat) : Option Nat :=
  (compat_room_ids inp s).find? fun rid => a.room s.id d p rid

/-- Lines 563-580 of `extract_solution` for one (subject, day, period): a
session record is appended only when the schedule variable is 1 AND a room
was found AND the room id is truthy (`if assigned_room:` - Python treats
id 0 as falsy); otherwise the scheduled slot is silently skipped. -/
def emit_at (inp : Input) (a : Asg) (s : Subject) (d p : Nat) : Option Session :=
  if a.sched s.id d p then
    match find_assigned_room inp a s d p with
    | some rid =>
        if rid ≠ 0 then
          some ⟨d, p, s.id, s.teacher_id, rid, s.is_lab, if s.is_lab then 3 else 1⟩
        else none
    | none => none
  else none

/-- All session records `extract_solution` emits for one subject, in the
day-major, period-minor order of the Python loops. -/
def sessions_for (inp : Input) (a : Asg) (s : Subject) : List Session :=
  (List.range inp.cfg.DAYS).flatMap fun d =>
    (List.range inp.cfg.PERIODS).filterMap fun p => emit_at inp a s d p

/-- Return value of `extract_solution`: `success` is the literal `True`
and `timetable` is the flat session list over all subjects. -/
structure SolveResult where
  success : Bool
  timetable : List Session
deriving DecidableEq

/-- `extract_solution` (lines 552-595) applied to a solver assignment. -/
def extract_solution (inp : Input) (a : Asg) : SolveResult :=
  ⟨true, inp.subjects.flatMap fun s => sessions_for inp a s⟩

/-- The `constraints_summary` block of the INFEASIBLE branch of `solve`
(lines 524-529). -/
structure InfeasibleSummary where
  total_periods_needed : Nat
  total_room_capacity : Nat
  lab_subjects : Nat
  lab_rooms : Nat
deriving DecidableEq

/-- Lines 524-529: demand/capacity aggregates reported on INFEASIBLE,
including the lab-subject count and the lab-room count. -/
def infeasible_summary (inp : Input) : InfeasibleSummary :=
  ⟨(inp.subjects.map fun s => s.max_periods_per_week).sum,
   inp.rooms.length * inp.cfg.DAYS * inp.cfg.PERIODS,
   (inp.subjects.filter fun s => s.is_lab).length,
   (inp.rooms.filter fun r => r.type == RoomType.laboratory).length⟩

/-- The four CP-SAT terminal statuses plus the catch-all branch of `solve`. -/
inductive SolverStatus where
  | OPTIMAL
  | FEASIBLE
  | INFEASIBLE
  | UNKNOWN
  | other (name : String)
deriving DecidableEq

/-- A JSON document written to stdout: either the success payload
(`success: true` with a timetable) or a failure payload (`success: false`
with an error message, optional status name and optional stats error
type).  Every payload carries an explicit success flag. -/
inductive Payload where
  | success_payload (timetable : List Session)
  | failure_payload (error : String) (status : Option String) (error_type : Option String)
deriving DecidableEq

/-- Status dispatch of `solve` (lines 509-550): OPTIMAL and FEASIBLE both
extract a solution; INFEASIBLE and UNKNOWN return failure payloads with a
status name; any other status returns a generic failure. -/
def solve_payload (inp : Input) (a : Asg) : SolverStatus → Payload
  | .OPTIMAL => .success_payload (extract_solution inp a).timetable
  | .FEASIBLE => .success_payload (extract_solution inp a).timetable
  | .INFEASIBLE =>
      .failure_payload "Solver could not find a feasible timetable" (some "INFEASIBLE") none
  | .UNKNOWN =>
      .failure_payload "Solver status unknown - optimization may have timed out"
        (some "UNKNOWN") none
  | .other n => .failure_payload ("Optimization failed with status: " ++ n) (some n) none

/-- The distinguishable ways one invocation of `main` can go, mirroring its
branch structure (lines 597-728): bad argument count, JSON decode failure,
a missing required field, empty subjects, empty rooms, a completed solver
run, or an unexpected exception caught by the outer handler. -/
inductive Invocation where
  | badArgCount
  | invalidJSON (msg : String)
  | missingField (f : String)
  | noSubjects
  | noRooms
  | solverRun (inp : Input) (a : Asg) (st : SolverStatus)
  | internalFault (msg : String)

/-- The body of `main` once the module has loaded: every branch prints one
JSON payload to stdout and calls `sys.exit(0)`. -/
def main_payload : Invocation → Payload × Nat
  | .badArgCount =>
      (.failure_payload "Usage: python timetable_optimizer.py <json_data>" none
        (some "ArgumentError"), 0)
  | .invalidJSON msg =>
      (.failure_payload ("Invalid JSON input: " ++ msg) none (some "JSONDecodeError"), 0)
  | .missingField f =>
      (.failure_payload ("Missing required field: " ++ f) none (some "ValidationError"), 0)
  | .noSubjects =>
      (.failure_payload "No subjects provided for optimization" none
        (some "ValidationError"), 0)
  | .noRooms =>
      (.failure_payload "No rooms provided for optimization" none
        (some "ValidationError"), 0)
  | .solverRun inp a st => (solve_payload inp a st, 0)
  | .internalFault msg =>
      (.failure_payload ("Unexpected error during optimization: " ++ msg) none
        (some "InternalError"), 0)

/-- Whether the module-level `from ortools.sat.python import cp_model`
(line 10) succeeds.  It runs when the interpreter loads the script, BEFORE
`main` and before the try/except inside `main`. -/
inductive ModuleLoad where
  | importsOk
  | importFails (msg : String)

/-- Observable outcome of one process run: either a JSON payload was
written to stdout together with an exit code, or the process died with an
uncaught exception traceback and wrote no JSON at all. -/
inductive ProcOutcome where
  | emitted (p : Payload) (exitCode : Nat)
  | abruptTraceback (msg : String)
deriving Inhabited

/-- True iff the run produced a JSON document on stdout. -/
def ProcOutcome.writes_json : ProcOutcome → Bool
  | .emitted _ _ => true
  | .abruptTraceback _ => false

/-- Exit code of the run, `none` for an uncaught-exception death. -/
def ProcOutcome.exit_code : ProcOutcome → Option Nat
  | .emitted _ c => some c
  | .abruptTraceback _ => none

/-- Whole-script control flow: a failing module-level import aborts the
process before `main` ever runs (the `except ImportError` inside `main`,
lines 707-715, cannot catch it); with imports loaded, `main` always emits
one payload and exits 0. -/
def run_script : ModuleLoad → Invocation → ProcOutcome
  | .importFails msg, _ => .abruptTraceback msg
  | .importsOk, inv => .emitted (main_payload inv).1 (main_payload inv).2

/-! ### Concrete instances

The spec's concrete scenario (section 8): department with subject A
(non-lab, teacher 1, 5 periods/week, max 2/day) and subject B (lab,
teacher 2, 3 periods/week, max 3/day), DAYS = 5, PERIODS = 8, morning
0-3, evening 4-7, lab_duration 3, default toggles. -/

/-- Subject A of the spec's concrete scenario. -/
def subjA : Subject := ⟨1, 1, false, 5, 2⟩

/-- Subject B (the lab subject) of the spec's concrete scenario. -/
def subjB : Subject := ⟨2, 2, true, 3, 3⟩

/-- The spec scenario's constraint block with defaults. -/
def cfg0 : Config := ⟨5, 8, 3, [0, 1, 2, 3], [4, 5, 6, 7], 2, true, true⟩

/-- The spec's second concrete scenario: one classroom and ZERO laboratory
rooms, while subject B is a lab subject. -/
def scenario_no_lab_rooms : Input := ⟨[subjA, subjB], [⟨10, .classroom⟩], cfg0⟩

/-- Slots where subject A is scheduled in the exhibited assignment. -/
def a_slots : List (Nat × Nat) := [(0, 1), (0, 2), (1, 1), (1, 2), (2, 1)]

/-- Slots where subject B is scheduled in the exhibited assignment: two
periods at the end of day 3 and a lone final period on day 4. -/
def b_slots : List (Nat × Nat) := [(3, 6), (3, 7), (4, 7)]

/-- A satisfying assignment for `scenario_no_lab_rooms`: subject A takes
the classroom; subject B is scheduled (its weekly equality demands it) but
has no room-assignment variables at all, and no constraint ties its
schedule variables to any room. -/
def asg0 : Asg :=
  ⟨fun sid d p =>
      if sid == 1 then decide ((d, p) ∈ a_slots)
      else if sid == 2 then decide ((d, p) ∈ b_slots)
      else false,
   fun sid d p rid =>
      if sid == 1 && rid == 10 then decide ((d, p) ∈ a_slots) else false⟩

/-- Scenario with subject B alone and one laboratory room. -/
def scenario_lab : Input := ⟨[subjB], [⟨20, .laboratory⟩], cfg0⟩

/-- Lab slots: a two-period run ending day 0 and an isolated single session
at the last period of day 1. -/
def b1_slots : List (Nat × Nat) := [(0, 6), (0, 7), (1, 7)]

/-- A satisfying assignment for `scenario_lab` whose day-1 lab session is
an isolated single period (period 7, the last period of the day). -/
def asg1 : Asg :=
  ⟨fun sid d p => sid == 2 && decide ((d, p) ∈ b1_slots),
   fun sid d p rid => sid == 2 && rid == 20 && decide ((d, p) ∈ b1_slots)⟩

/-- Like `cfg0` but with a teacher daily cap of 3, so one full lab block
fits in a day. -/
def cfg2 : Config := ⟨5, 8, 3, [0, 1, 2, 3], [4, 5, 6, 7], 3, true, true⟩

/-- Scenario with subject B alone, one laboratory room, teacher cap 3. -/
def scenario_block : Input := ⟨[subjB], [⟨20, .laboratory⟩], cfg2⟩

/-- Lab block at periods 5, 6, 7 of day 0. -/
def b2_slots : List (Nat × Nat) := [(0, 5), (0, 6), (0, 7)]

/-- A satisfying assignment for `scenario_block` scheduling the lab block
5-7 on day 0; period 5 = PERIODS - lab_duration starts the window chain. -/
def asg2 : Asg :=
  ⟨fun sid d p => sid == 2 && decide ((d, p) ∈ b2_slots),
   fun sid d p rid => sid == 2 && rid == 20 && decide ((d, p) ∈ b2_slots)⟩

/-- Objective auxiliary assignment used with `scenario_no_lab_rooms`:
gap indicators mirror the schedule (which always satisfies the gap
inequality) and loads are exactly the daily sums. -/
def g0 : ObjAsg :=
  ⟨fun sid d p => asg0.sched sid d p, fun d => daySum scenario_no_lab_rooms asg0 d⟩

/-! ### Helper lemmas -/

/-- Split `satisfies_all` into its eleven constraint families. -/
lemma of_satisfies_all {inp : Input} {a : Asg} (h : satisfies_all inp a = true) :
    weekly_counts_ok inp a = true ∧ daily_caps_ok inp a = true ∧
    room_coupling_ok inp a = true ∧ c1_room_conflicts_ok inp a = true ∧
    c2_session_separation_ok inp a = true ∧ c3_teacher_sessions_ok inp a = true ∧
    c4_lab_continuity_ok inp a = true ∧ c5_teacher_conflicts_ok inp a = true ∧
    c6_no_lab_first_period_ok inp a = true ∧ c7_no_lab_clashes_ok inp a = true ∧
    c8_single_subject_per_slot_ok inp a = true := by
  simp only [satisfies_all, Bool.and_eq_true] at h
  tauto

/-- A nonzero 0/1 sum over a list has a true entry. -/
lemma exists_true_of_btn_sum_pos {α : Type} {l : List α} {f : α → Bool}
    (h : (l.map fun x => btn (f x)).sum ≠ 0) : ∃ x ∈ l, f x = true := by
  by_contra hno
  push_neg at hno
  apply h
  rw [List.sum_eq_zero_iff]
  intro x hx
  rcases List.mem_map.mp hx with ⟨y, hy, rfl⟩
  have := hno y hy
  simp [btn, this]

/-- The room-schedule coupling equality, available for every triple whose
subject has at least one compatible room. -/
lemma coupling_of_satisfies {inp : Input} {a : Asg} (h : satisfies_all inp a = true)
    {s : Subject} (hs : s ∈ inp.subjects) {d p : Nat} (hd : d < inp.cfg.DAYS)
    (hp : p < inp.cfg.PERIODS) (hne : compat_room_ids inp s ≠ []) :
    roomSum inp a s d p = btn (a.sched s.id d p) := by
  have hc := (of_satisfies_all h).2.2.1
  simp only [room_coupling_ok, List.all_eq_true] at hc
  have h3 := hc s hs d (List.mem_range.mpr hd) p (List.mem_range.mpr hp)
  rw [Bool.or_eq_true] at h3
  rcases h3 with h3 | h3
  · exact absurd (List.isEmpty_iff.mp h3) hne
  · exact eq_of_beq h3

/-- A found-and-truthy room makes `emit_at` return a record; a falsy or
missing room makes it skip.  `isSome` of the emission equals the schedule
bit whenever the coupling equality holds and all compatible room ids are
nonzero. -/
lemma emit_at_isSome {inp : Input} {a : Asg} {s : Subject} {d p : Nat}
    (hcoup : roomSum inp a s d p = btn (a.sched s.id d p))
    (hids : ∀ rid ∈ compat_room_ids inp s, rid ≠ 0) :
    (emit_at inp a s d p).isSome = a.sched s.id d p := by
  cases hsch : a.sched s.id d p with
  | false => simp [emit_at, hsch]
  | true =>
      rw [hsch] at hcoup
      have hsum : roomSum inp a s d p ≠ 0 := by rw [hcoup]; simp [btn]
      have hex : ∃ rid ∈ compat_room_ids inp s, a.room s.id d p rid = true :=
        exists_true_of_btn_sum_pos hsum
      cases hf : find_assigned_room inp a s d p with
      | none =>
          rw [find_assigned_room, List.find?_eq_none] at hf
          rcases hex with ⟨rid, hmem, hr⟩
          exact absurd hr (hf rid hmem)
      | some rid =>
          have hmem := List.mem_of_find?_eq_some hf
          have hrid := hids rid hmem
          simp [emit_at, hsch, hf, hrid]

/-- Length of a `filterMap` as a 0/1 sum of `isSome` bits. -/
lemma length_filterMap_eq_sum {α β : Type} (f : α → Option β) (l : List α) :
    (l.filterMap f).length = (l.map fun x => btn (f x).isSome).sum := by
  induction l with
  | nil => rfl
  | cons x xs ih =>
      cases h : f x <;> simp [List.filterMap_cons, h, ih, btn, Nat.add_comm]

/-- `countP` distributes over `flatMap` as a sum. -/
lemma countP_flatMap {α β : Type} (q : β → Bool) (l : List α) (f : α → List β) :
    (l.flatMap f).countP q = (l.map fun x => (f x).countP q).sum := by
  induction l with
  | nil => rfl
  | cons x xs ih => simp [List.flatMap_cons, List.countP_append, ih]

/-- `countP` after `filterMap` counts the preimages whose image satisfies
the predicate. -/
lemma countP_filterMap {α β : Type} (q : β → Bool) (f : α → Option β) (l : List α) :
    (l.filterMap f).countP q = l.countP fun x => ((f x).map q).getD false := by
  induction l with
  | nil => rfl
  | cons x xs ih =>
      cases h : f x <;> simp [List.filterMap_cons, h, List.countP_cons, ih]

/-- A 0/1-weighted point mass summed over a duplicate-free list is at most
the weight. -/
lemma sum_map_ite_le {l : List Nat} (hnd : l.Nodup) (d c : Nat) :
    (l.map fun x => if x = d then c else 0).sum ≤ c := by
  induction l with
  | nil => simp
  | cons x xs ih =>
      rcases List.nodup_cons.mp hnd with ⟨hx, hnd'⟩
      by_cases hxd : x = d
      · subst hxd
        have hz : (xs.map fun y => if y = x then c else 0).sum = 0 := by
          rw [List.sum_eq_zero_iff]
          intro v hv
          rcases List.mem_map.mp hv with ⟨y, hy, rfl⟩
          have : y ≠ x := fun hc => hx (hc ▸ hy)
          simp [this]
        simp [hz]
      · simpa [hxd] using Nat.le_trans (ih hnd') (le_refl c)

/-- Any field values of a record produced by `emit_at`. -/
lemma emit_at_eq_some {inp : Input} {a : Asg} {s : Subject} {d p : Nat} {r : Session}
    (h : emit_at inp a s d p = some r) :
    r.day = d ∧ r.time_slot = p ∧ r.subject_id = s.id ∧
      a.sched s.id d p = true ∧ find_assigned_room inp a s d p = some r.room_id ∧
      r.room_id ≠ 0 := by
  by_cases hsch : a.sched s.id d p
  · cases hf : find_assigned_room inp a s d p with
    | none => simp [emit_at, hsch, hf] at h
    | some rid =>
        by_cases hrid : rid = 0
        · simp [emit_at, hsch, hf, hrid] at h
        · simp only [emit_at, hsch, if_true, hf, hrid, ne_eq, not_false_eq_true,
            if_pos, Option.some.injEq] at h
          subst h
          refine ⟨rfl, rfl, rfl, hsch, ?_, ?_⟩
          · rfl
          · exact hrid
  · simp [emit_at, hsch] at h

/-- A boolean value is at most 1. -/
lemma btn_le_one (b : Bool) : btn b ≤ 1 := by cases b <;> simp [btn]

/-- When every scheduled slot of a subject finds a truthy room, the number
of records `extract_solution` emits for it equals its weekly schedule sum. -/
lemma sessions_for_length {inp : Input} {a : Asg} {s : Subject}
    (h : satisfies_all inp a = true) (hs : s ∈ inp.subjects)
    (hne : compat_room_ids inp s ≠ []) (hids : ∀ rid ∈ compat_room_ids inp s, rid ≠ 0) :
    (sessions_for inp a s).length = subjectWeekSum inp a s.id := by
  rw [sessions_for, List.length_flatMap, subjectWeekSum]
  congr 1
  apply List.map_congr_left
  intro d hd
  simp only [Function.comp]
  rw [length_filterMap_eq_sum, subjectDaySum]
  congr 1
  apply List.map_congr_left
  intro p hp
  rw [emit_at_isSome
    (coupling_of_satisfies h hs (List.mem_range.mp hd) (List.mem_range.mp hp) hne) hids]

/-- Each subject contributes at most `btn sched` records at a given
(day, period) slot, in any assignment. -/
lemma countP_sessions_slot_le (inp : Input) (a : Asg) (s : Subject) (d p : Nat) :
    (sessions_for inp a s).countP (fun r => r.day == d && r.time_slot == p) ≤
      btn (a.sched s.id d p) := by
  rw [sessions_for, countP_flatMap]
  have key : ∀ d' p' : Nat,
      (((emit_at inp a s d' p').map fun r => r.day == d && r.time_slot == p).getD false) =
        true → d' = d ∧ p' = p ∧ a.sched s.id d p = true := by
    intro d' p' hq
    cases hr : emit_at inp a s d' p' with
    | none => rw [hr] at hq; simp at hq
    | some r =>
        rw [hr] at hq
        simp only [Option.map_some', Option.getD_some, Bool.and_eq_true, beq_iff_eq] at hq
        rcases emit_at_eq_some hr with ⟨hday, hslot, _, hsch, _, _⟩
        have hd' : d' = d := by rw [← hday]; exact hq.1
        have hp' : p' = p := by rw [← hslot]; exact hq.2
        subst hd'; subst hp'
        exact ⟨rfl, rfl, hsch⟩
  have hbound : ∀ d' ∈ List.range inp.cfg.DAYS,
      ((List.range inp.cfg.PERIODS).filterMap fun p' => emit_at inp a s d' p').countP
        (fun r => r.day == d && r.time_slot == p) ≤
        (if d' = d then btn (a.sched s.id d p) else 0) := by
    intro d' _
    rw [countP_filterMap]
    by_cases hd' : d' = d
    · subst hd'
      rw [if_pos rfl]
      cases hsch : a.sched s.id d' p with
      | false =>
          have hzero : (List.range inp.cfg.PERIODS).countP
              (fun p' => ((emit_at inp a s d' p').map
                fun r => r.day == d' && r.time_slot == p).getD false) = 0 := by
            rw [List.countP_eq_zero]
            intro p' _ hq
            exact absurd (key d' p' hq).2.2 (by rw [hsch]; simp)
          rw [hzero]; simp [btn]
      | true =>
          have hone : (List.range inp.cfg.PERIODS).countP
              (fun p' => ((emit_at inp a s d' p').map
                fun r => r.day == d' && r.time_slot == p).getD false) ≤ 1 := by
            have hmono := List.countP_mono_left
              (l := List.range inp.cfg.PERIODS)
              (p := fun p' => ((emit_at inp a s d' p').map
                fun r => r.day == d' && r.time_slot == p).getD false)
              (q := fun p' => p' == p)
              (fun p' _ hq => by rw [beq_iff_eq]; exact (key d' p' hq).2.1)
            exact Nat.le_trans hmono
              (List.nodup_iff_count_le_one.mp (List.nodup_range _) p)
          rw [btn]; simpa using hone
    · rw [if_neg hd']
      have hzero : (List.range inp.cfg.PERIODS).countP
          (fun p' => ((emit_at inp a s d' p').map
            fun r => r.day == d && r.time_slot == p).getD false) = 0 := by
        rw [List.countP_eq_zero]
        intro p' _ hq
        exact absurd (key d' p' hq).1 hd'
      rw [hzero]
  exact Nat.le_trans (List.sum_le_sum hbound) (sum_map_ite_le (List.nodup_range _) d _)

/-! ### Normalization lemmas (for claim C6) -/

/-- The bounds-filter-and-sort step always yields a sorted list. -/
lemma sortPeriodIdx_sorted (P : Nat) (l : List Int) :
    (sortPeriodIdx P l).Sorted (· ≤ ·) :=
  List.sorted_insertionSort _ _

/-- Every entry surviving the bounds filter lies in `[0, P)`. -/
lemma sortPeriodIdx_mem {P : Nat} {l : List Int} {x : Int}
    (hx : x ∈ sortPeriodIdx P l) : 0 ≤ x ∧ x < (P : Int) := by
  rw [sortPeriodIdx, List.mem_insertionSort] at hx
  have := List.of_mem_filter hx
  simpa using this

/-- The step is the identity on sorted lists already inside `[0, P)`. -/
lemma sortPeriodIdx_eq_self {P : Nat} {l : List Int} (hsort : l.Sorted (· ≤ ·))
    (hb : ∀ x ∈ l, 0 ≤ x ∧ x < (P : Int)) : sortPeriodIdx P l = l := by
  rw [sortPeriodIdx]
  have hfil : l.filter (fun p => decide (0 ≤ p) && decide (p < (P : Int))) = l := by
    rw [List.filter_eq_self]
    intro x hx
    have := hb x hx
    simp [this.1, this.2]
  rw [hfil]
  exact List.Sorted.insertionSort_eq hsort

/-- The step is the identity on an in-bounds cast of `List.range'`. -/
lemma sortPeriodIdx_range' (P s n : Nat) (h : s + n ≤ P) :
    sortPeriodIdx P ((List.range' s n).map Int.ofNat) = (List.range' s n).map Int.ofNat := by
  apply sortPeriodIdx_eq_self
  · rw [List.range'_eq_map_range, List.map_map]
    apply List.Pairwise.map
    · intro a b hab
      exact Int.ofNat_le.mpr (Nat.add_le_add_left (Nat.le_of_lt hab) s)
    · exact List.pairwise_lt_range n
  · intro x hx
    rcases List.mem_map.mp hx with ⟨y, hy, rfl⟩
    have hb := List.mem_range'_1.mp hy
    constructor
    · exact Int.ofNat_nonneg y
    · exact Int.ofNat_lt.mpr (by omega)

/-- The step is the identity on an in-bounds cast of `List.range`. -/
lemma sortPeriodIdx_range (P n : Nat) (h : n ≤ P) :
    sortPeriodIdx P ((List.range n).map Int.ofNat) = (List.range n).map Int.ofNat := by
  rw [List.range_eq_range']
  exact sortPeriodIdx_range' P 0 n (by omega)

/-! ### Claim theorems -/

/-- Claim C1 (code_bug evidence).  With a lab subject and zero laboratory
rooms the model is NOT infeasible: the exhibited assignment satisfies every
constraint of `add_all_constraints` (the room-schedule coupling is skipped
for subject B because its room-variable dict is empty), so a sound solver
returns OPTIMAL/FEASIBLE, `extract_solution` reports success, schedules
subject B's 3 weekly periods in the model, yet emits zero session records
for it — a spurious partial schedule instead of the INFEASIBLE status the
claim demands (whose diagnostic would indeed have read lab_subjects 1,
lab_rooms 0). -/
theorem c1_zero_lab_rooms_spurious_success :
    satisfies_all scenario_no_lab_rooms asg0 = true ∧
    subjB ∈ scenario_no_lab_rooms.subjects ∧ subjB.is_lab = true ∧
    (infeasible_summary scenario_no_lab_rooms).lab_subjects = 1 ∧
    (infeasible_summary scenario_no_lab_rooms).lab_rooms = 0 ∧
    subjectWeekSum scenario_no_lab_rooms asg0 subjB.id = 3 ∧
    (extract_solution scenario_no_lab_rooms asg0).success = true ∧
    sessions_for scenario_no_lab_rooms asg0 subjB = [] := by decide

/-- Claim C2 (counterexample).  In a satisfying assignment of the model,
subject B is scheduled at (day 3, period 6) while the sum of its
room-assignment variables there is 0, so the claimed coupling equality
fails: with no compatible room the `if room_assignments:` guard drops the
constraint instead of forcing the schedule variable to 0. -/
theorem c2_coupling_counterexample :
    satisfies_all scenario_no_lab_rooms asg0 = true ∧
    subjB ∈ scenario_no_lab_rooms.subjects ∧
    asg0.sched subjB.id 3 6 = true ∧
    roomSum scenario_no_lab_rooms asg0 subjB 3 6 = 0 ∧
    roomSum scenario_no_lab_rooms asg0 subjB 3 6 ≠ btn (asg0.sched subjB.id 3 6) := by
  decide

/-- Claim C2 (amended).  For every (subject, day, period) whose subject has
at least one compatible room, every satisfying assignment makes the sum of
that triple's room-assignment variables equal its schedule variable. -/
theorem c2_coupling_amended (inp : Input) (a : Asg) (h : satisfies_all inp a = true)
    (s : Subject) (hs : s ∈ inp.subjects) (d p : Nat) (hd : d < inp.cfg.DAYS)
    (hp : p < inp.cfg.PERIODS) (hne : compat_room_ids inp s ≠ []) :
    roomSum inp a s d p = btn (a.sched s.id d p) :=
  coupling_of_satisfies h hs hd hp hne

/-- Witness for `c2_coupling_amended` at subject A, day 0, period 1 of the
zero-lab-room scenario. -/
theorem c2_coupling_amended_witness :
    roomSum scenario_no_lab_rooms asg0 subjA 0 1 = btn (asg0.sched subjA.id 0 1) :=
  c2_coupling_amended scenario_no_lab_rooms asg0 (by decide) subjA (by decide) 0 1
    (by decide) (by decide) (by decide)

/-- Claim C3 (counterexample).  A successful solve of the zero-lab-room
scenario emits 0 records for subject B although its
`max_periods_per_week` is 3: scheduled triples without a truthy assigned
room are silently dropped by `extract_solution`. -/
theorem c3_session_count_counterexample :
    satisfies_all scenario_no_lab_rooms asg0 = true ∧
    (extract_solution scenario_no_lab_rooms asg0).success = true ∧
    subjB ∈ scenario_no_lab_rooms.subjects ∧
    subjB.max_periods_per_week = 3 ∧
    ((extract_solution scenario_no_lab_rooms asg0).timetable.filter
      fun r => r.subject_id == subjB.id).length = 0 := by decide

/-- Claim C3 (amended).  The model does constrain each subject's weekly
schedule sum with equality, and for every subject that has at least one
compatible room, all of whose compatible rooms have nonzero (truthy) ids,
the emitted record count equals `max_periods_per_week` exactly. -/
theorem c3_session_count_amended (inp : Input) (a : Asg) (h : satisfies_all inp a = true)
    (s : Subject) (hs : s ∈ inp.subjects) (hne : compat_room_ids inp s ≠ [])
    (hids : ∀ rid ∈ compat_room_ids inp s, rid ≠ 0) :
    subjectWeekSum inp a s.id = s.max_periods_per_week ∧
    (sessions_for inp a s).length = s.max_periods_per_week := by
  have hw := (of_satisfies_all h).1
  simp only [weekly_counts_ok, List.all_eq_true] at hw
  have hweek : subjectWeekSum inp a s.id = s.max_periods_per_week := eq_of_beq (hw s hs)
  exact ⟨hweek, by rw [sessions_for_length h hs hne hids, hweek]⟩

/-- Witness for `c3_session_count_amended` at subject A of the
zero-lab-room scenario: 5 records are emitted, matching its weekly count. -/
theorem c3_session_count_amended_witness :
    subjectWeekSum scenario_no_lab_rooms asg0 subjA.id = subjA.max_periods_per_week ∧
    (sessions_for scenario_no_lab_rooms asg0 subjA).length = subjA.max_periods_per_week :=
  c3_session_count_amended scenario_no_lab_rooms asg0 (by decide) subjA (by decide)
    (by decide) (by decide)

/-- Claim C4 (counterexample).  With both toggles enabled, a satisfying
assignment of `scenario_lab` puts subject B's lab sessions at periods 6-7
of day 0 and at period 7 alone on day 1; the emitted timetable for day 1
is exactly one isolated single-period lab session (the interior-isolation
constraint does not cover the last period of the day). -/
theorem c4_isolated_last_period_counterexample :
    satisfies_all scenario_lab asg1 = true ∧
    scenario_lab.cfg.enforce_lab_continuity = true ∧
    scenario_lab.cfg.no_lab_first_period = true ∧
    subjB ∈ scenario_lab.subjects ∧ subjB.is_lab = true ∧
    ((extract_solution scenario_lab asg1).timetable.filter
      fun r => r.day == 1).map (fun r => r.time_slot) = [7] := by decide

/-- Claim C4 (amended).  In every satisfying assignment, a lab subject's
scheduled periods obey: with lab continuity enabled, every scheduled
interior period (1 .. PERIODS-2) has a scheduled neighbour, and with the
first-period rule enabled nothing is scheduled at the first morning or
first evening index; an isolated single lab period remains possible only
at the boundary the interior rule does not cover (the day's last period). -/
theorem c4_lab_isolation_amended (inp : Input) (a : Asg) (h : satisfies_all inp a = true)
    (s : Subject) (hs : s ∈ inp.subjects) (hlab : s.is_lab = true)
    (d : Nat) (hd : d < inp.cfg.DAYS) :
    (inp.cfg.enforce_lab_continuity = true → ∀ p, 1 ≤ p → p + 1 < inp.cfg.PERIODS →
      a.sched s.id d p = true →
      (a.sched s.id d (p - 1) = true ∨ a.sched s.id d (p + 1) = true)) ∧
    (inp.cfg.no_lab_first_period = true → ∀ m0, inp.cfg.morning.head? = some m0 →
      a.sched s.id d m0 = false) ∧
    (inp.cfg.no_lab_first_period = true → ∀ e0, inp.cfg.evening.head? = some e0 →
      a.sched s.id d e0 = false) := by
  have hc6 : inp.cfg.no_lab_first_period = true →
      ((match inp.cfg.morning.head? with
        | none => true
        | some m0 => !a.sched s.id d m0) &&
       (match inp.cfg.evening.head? with
        | none => true
        | some e0 => !a.sched s.id d e0)) = true := by
    intro hflag
    have h6 := (of_satisfies_all h).2.2.2.2.2.2.2.2.1
    rw [c6_no_lab_first_period_ok, Bool.or_eq_true, Bool.not_eq_true'] at h6
    rcases h6 with hoff | h6
    · simp [hflag] at hoff
    · simp only [List.all_eq_true] at h6
      have hsub := h6 s hs
      rw [Bool.or_eq_true, Bool.not_eq_true'] at hsub
      rcases hsub with hl | hsub
      · simp [hlab] at hl
      · simp only [List.all_eq_true] at hsub
        exact hsub d (List.mem_range.mpr hd)
  refine ⟨?_, ?_, ?_⟩
  · intro hflag p hp1 hp2 hsch
    have h4 := (of_satisfies_all h).2.2.2.2.2.2.1
    rw [c4_lab_continuity_ok, Bool.or_eq_true, Bool.not_eq_true'] at h4
    rcases h4 with hoff | h4
    · simp [hflag] at hoff
    · simp only [List.all_eq_true] at h4
      have hsub := h4 s hs
      rw [Bool.or_eq_true, Bool.not_eq_true'] at hsub
      rcases hsub with hl | hsub
      · simp [hlab] at hl
      · simp only [List.all_eq_true] at hsub
        have hday := hsub d (List.mem_range.mpr hd)
        rw [Bool.and_eq_true] at hday
        have hiso := hday.2
        simp only [List.all_eq_true] at hiso
        have hineq := hiso p (List.mem_range'_1.mpr ⟨hp1, by omega⟩)
        rw [decide_eq_true_eq, hsch] at hineq
        cases h1 : a.sched s.id d (p - 1) with
        | true => exact Or.inl rfl
        | false =>
            cases h2 : a.sched s.id d (p + 1) with
            | true => exact Or.inr rfl
            | false => rw [h1, h2] at hineq; simp [btn] at hineq
  · intro hflag m0 hm0
    have hday := hc6 hflag
    rw [Bool.and_eq_true] at hday
    have hm := hday.1
    rw [hm0] at hm
    rwa [Bool.not_eq_true'] at hm
  · intro hflag e0 he0
    have hday := hc6 hflag
    rw [Bool.and_eq_true] at hday
    have he := hday.2
    rw [he0] at he
    rwa [Bool.not_eq_true'] at he

/-- Witness for `c4_lab_isolation_amended` at subject B, day 0 of
`scenario_lab`: period 6 is scheduled, so a neighbour is scheduled, and
nothing sits at the first morning index 0 or the first evening index 4. -/
theorem c4_lab_isolation_amended_witness :
    (asg1.sched subjB.id 0 5 = true ∨ asg1.sched subjB.id 0 7 = true) ∧
    asg1.sched subjB.id 0 0 = false ∧ asg1.sched subjB.id 0 4 = false := by
  have hmain := c4_lab_isolation_amended scenario_lab asg1 (by decide) subjB (by decide)
    (by decide) 0 (by decide)
  exact ⟨hmain.1 rfl 6 (by decide) (by decide) (by decide),
    hmain.2.1 rfl 0 rfl, hmain.2.2 rfl 4 rfl⟩

/-- Claim C5 (confirmed).  In every satisfying assignment, every in-range
slot carries at most one scheduled subject across the whole department,
and the emitted timetable holds at most one session record per
(day, time_slot). -/
theorem c5_single_occupancy (inp : Input) (a : Asg) (h : satisfies_all inp a = true)
    (d p : Nat) (hd : d < inp.cfg.DAYS) (hp : p < inp.cfg.PERIODS) :
    slotSum inp a d p ≤ 1 ∧
    ((extract_solution inp a).timetable.countP
      fun r => r.day == d && r.time_slot == p) ≤ 1 := by
  have hslot : slotSum inp a d p ≤ 1 := by
    have hc8 := (of_satisfies_all h).2.2.2.2.2.2.2.2.2.2
    simp only [c8_single_subject_per_slot_ok, List.all_eq_true] at hc8
    have h8 := hc8 d (List.mem_range.mpr hd) p (List.mem_range.mpr hp)
    rw [Bool.or_eq_true, decide_eq_true_eq, decide_eq_true_eq] at h8
    rcases h8 with hlen | hle
    · cases hl : inp.subjects with
      | nil => simp [slotSum, hl]
      | cons s tl =>
          cases tl with
          | nil => simp only [slotSum, hl, List.map_cons, List.map_nil, List.sum_cons,
              List.sum_nil, Nat.add_zero]; exact btn_le_one _
          | cons s2 tl2 => rw [hl] at hlen; simp at hlen
    · exact hle
  refine ⟨hslot, ?_⟩
  show ((inp.subjects.flatMap fun s => sessions_for inp a s).countP
    fun r => r.day == d && r.time_slot == p) ≤ 1
  rw [countP_flatMap]
  exact Nat.le_trans
    (List.sum_le_sum fun s _ => countP_sessions_slot_le inp a s d p) hslot

/-- Witness for `c5_single_occupancy` at slot (0, 1) of the zero-lab-room
scenario. -/
theorem c5_single_occupancy_witness :
    slotSum scenario_no_lab_rooms asg0 0 1 ≤ 1 ∧
    ((extract_solution scenario_no_lab_rooms asg0).timetable.countP
      fun r => r.day == 0 && r.time_slot == 1) ≤ 1 :=
  c5_single_occupancy scenario_no_lab_rooms asg0 (by decide) 0 1 (by decide) (by decide)

/-- Claim C7 (code_bug evidence).  Once the module-level import has
succeeded, every branch of `main` writes one JSON payload and exits 0 —
but a failing solver-dependency import aborts the process before `main`
runs, with no JSON output and no exit code 0, because the
`except ImportError` handler inside `main` cannot catch the module-level
`from ortools.sat.python import cp_model`. -/
theorem c7_uniform_output :
    (∀ inv : Invocation, (run_script ModuleLoad.importsOk inv).writes_json = true ∧
      (run_script ModuleLoad.importsOk inv).exit_code = some 0) ∧
    (∀ (msg : String) (inv : Invocation),
      (run_script (ModuleLoad.importFails msg) inv).writes_json = false ∧
      (run_script (ModuleLoad.importFails msg) inv).exit_code = none) := by
  constructor
  · intro inv; cases inv <;> exact ⟨rfl, rfl⟩
  · intro msg inv; exact ⟨rfl, rfl⟩

/-- Claim C8 (confirmed).  Under the objective-composer constraints: a gap
variable is forced to 1 whenever its subject is scheduled at an interior
period but at neither neighbour; each daily-load variable equals that
day's total scheduled-period count; and the minimized expression — the sum
of the gap variables — is unchanged by the load values, which carry no
weight in it. -/
theorem c8_objective_gap_only (inp : Input) (a : Asg) (g : ObjAsg)
    (h : objective_constraints_ok inp a g = true) :
    (∀ s ∈ inp.subjects, ∀ d, d < inp.cfg.DAYS → ∀ p, 1 ≤ p → p + 1 < inp.cfg.PERIODS →
      a.sched s.id d p = true → a.sched s.id d (p - 1) = false →
      a.sched s.id d (p + 1) = false → g.gap s.id d p = true) ∧
    (∀ d, d < inp.cfg.DAYS → g.load d = daySum inp a d) ∧
    (∀ g2 : ObjAsg, g2.gap = g.gap → objective_value inp g2 = objective_value inp g) := by
  rw [objective_constraints_ok, Bool.and_eq_true] at h
  refine ⟨?_, ?_, ?_⟩
  · intro s hs d hd p hp1 hp2 hcur hprev hnext
    have hg := h.1
    simp only [gap_constraints_ok, List.all_eq_true] at hg
    have hineq := hg s hs d (List.mem_range.mpr hd) p (List.mem_range'_1.mpr ⟨hp1, by omega⟩)
    rw [decide_eq_true_eq, hcur, hprev, hnext] at hineq
    cases hgap : g.gap s.id d p with
    | true => rfl
    | false => rw [hgap] at hineq; simp [btn] at hineq
  · intro d hd
    have hl := h.2
    simp only [load_constraints_ok, List.all_eq_true] at hl
    exact eq_of_beq (hl d (List.mem_range.mpr hd))
  · intro g2 hg2
    simp only [objective_value, hg2]

/-- Witness for `c8_objective_gap_only`: subject A's session at
(day 2, period 1) of the zero-lab-room assignment is isolated, so its gap
variable is forced on, and day 0's load equals the day sum. -/
theorem c8_objective_gap_only_witness :
    g0.gap subjA.id 2 1 = true ∧ g0.load 0 = daySum scenario_no_lab_rooms asg0 0 := by
  have hmain := c8_objective_gap_only scenario_no_lab_rooms asg0 g0 (by decide)
  exact ⟨hmain.1 subjA (by decide) 2 (by decide) 1 (by decide) (by decide) (by decide)
    (by decide) (by decide), hmain.2.1 0 (by decide)⟩

/-- Claim C9 (confirmed).  With lab continuity enabled, the per-window
inequalities chain: a lab subject scheduled at a period p with
p + lab_duration ≤ PERIODS is forced to stay scheduled at every period
from p through PERIODS - 1 on that day (lab_duration ≥ 2). -/
theorem c9_window_chain (inp : Input) (a : Asg) (h4 : c4_lab_continuity_ok inp a = true)
    (hflag : inp.cfg.enforce_lab_continuity = true)
    (s : Subject) (hs : s ∈ inp.subjects) (hlab : s.is_lab = true)
    (d : Nat) (hd : d < inp.cfg.DAYS) (p : Nat)
    (hdur : 2 ≤ inp.cfg.lab_duration)
    (hwin : p + inp.cfg.lab_duration ≤ inp.cfg.PERIODS)
    (hsched : a.sched s.id d p = true) :
    ∀ q, p ≤ q → q < inp.cfg.PERIODS → a.sched s.id d q = true := by
  have hW : ∀ st ∈ List.range ((inp.cfg.PERIODS + 1) - inp.cfg.lab_duration),
      ∀ off ∈ List.range' 1 (inp.cfg.lab_duration - 1),
      btn (a.sched s.id d st) ≤ btn (a.sched s.id d (st + off)) := by
    rw [c4_lab_continuity_ok, Bool.or_eq_true, Bool.not_eq_true'] at h4
    rcases h4 with hoff | h4
    · simp [hflag] at hoff
    · simp only [List.all_eq_true] at h4
      have hsub := h4 s hs
      rw [Bool.or_eq_true, Bool.not_eq_true'] at hsub
      rcases hsub with hl | hsub
      · simp [hlab] at hl
      · simp only [List.all_eq_true] at hsub
        have hday := hsub d (List.mem_range.mpr hd)
        rw [Bool.and_eq_true] at hday
        have hwins := hday.1
        simp only [List.all_eq_true, decide_eq_true_eq] at hwins
        exact hwins
  have step : ∀ st, st + inp.cfg.lab_duration ≤ inp.cfg.PERIODS →
      a.sched s.id d st = true → ∀ off, 1 ≤ off → off < inp.cfg.lab_duration →
      a.sched s.id d (st + off) = true := by
    intro st hst hsch off hoff1 hoff2
    have h1 := hW st (List.mem_range.mpr (by omega))
      off (List.mem_range'_1.mpr ⟨hoff1, by omega⟩)
    rw [hsch] at h1
    cases hb : a.sched s.id d (st + off) with
    | true => rfl
    | false => rw [hb] at h1; simp [btn] at h1
  have forward : ∀ k, p + k + inp.cfg.lab_duration ≤ inp.cfg.PERIODS →
      a.sched s.id d (p + k) = true := by
    intro k
    induction k with
    | zero => intro _; simpa using hsched
    | succ n ih =>
        intro hk
        have hn : p + n + inp.cfg.lab_duration ≤ inp.cfg.PERIODS := by omega
        have := step (p + n) hn (ih hn) 1 (Nat.le_refl 1) (by omega)
        simpa [Nat.add_assoc] using this
  intro q hpq hq
  by_cases hcase : q + inp.cfg.lab_duration ≤ inp.cfg.PERIODS
  · have := forward (q - p) (by omega)
    rwa [Nat.add_sub_cancel' hpq] at this
  · have hschst : a.sched s.id d (inp.cfg.PERIODS - inp.cfg.lab_duration) = true := by
      have := forward ((inp.cfg.PERIODS - inp.cfg.lab_duration) - p) (by omega)
      rwa [Nat.add_sub_cancel'
        (by omega : p ≤ inp.cfg.PERIODS - inp.cfg.lab_duration)] at this
    have := step (inp.cfg.PERIODS - inp.cfg.lab_duration) (by omega) hschst
      (q - (inp.cfg.PERIODS - inp.cfg.lab_duration)) (by omega) (by omega)
    rwa [Nat.add_sub_cancel'
      (by omega : inp.cfg.PERIODS - inp.cfg.lab_duration ≤ q)] at this

/-- Witness for `c9_window_chain`: in `scenario_block` subject B is
scheduled at period 5 = PERIODS - lab_duration of day 0, so period 7 is
forced. -/
theorem c9_window_chain_witness : asg2.sched subjB.id 0 7 = true :=
  c9_window_chain scenario_block asg2 (by decide) (by decide) subjB (by decide)
    (by decide) 0 (by decide) 5 (by decide) (by decide) (by decide) 7
    (by decide) (by decide)

/-- Claim C10 (confirmed).  `extract_solution` always reports success, and
a scheduled triple is emitted iff the first room-assignment variable found
true belongs to a room with a truthy (nonzero) id: a missing or id-0
winning room silently drops the record. -/
theorem c10_truthy_room_emission (inp : Input) (a : Asg) (s : Subject) (d p : Nat) :
    (extract_solution inp a).success = true ∧
    (find_assigned_room inp a s d p = none → emit_at inp a s d p = none) ∧
    (find_assigned_room inp a s d p = some 0 → emit_at inp a s d p = none) ∧
    (∀ sess : Session, emit_at inp a s d p = some sess →
      a.sched s.id d p = true ∧ find_assigned_room inp a s d p = some sess.room_id ∧
        sess.room_id ≠ 0) := by
  refine ⟨rfl, ?_, ?_, fun sess hemit => ?_⟩
  · intro hf
    by_cases hsch : a.sched s.id d p <;> simp [emit_at, hsch, hf]
  · intro hf
    by_cases hsch : a.sched s.id d p <;> simp [emit_at, hsch, hf]
  · have hfields := emit_at_eq_some hemit
    exact ⟨hfields.2.2.2.1, hfields.2.2.2.2.1, hfields.2.2.2.2.2⟩

/-- Witness for `c10_truthy_room_emission`: subject B is scheduled at
(day 3, period 6) of the zero-lab-room scenario, no room variable exists,
and the record is dropped while success stays true. -/
theorem c10_truthy_room_emission_witness :
    emit_at scenario_no_lab_rooms asg0 subjB 3 6 = none ∧
    (extract_solution scenario_no_lab_rooms asg0).success = true :=
  ⟨(c10_truthy_room_emission scenario_no_lab_rooms asg0 subjB 3 6).2.1 (by decide),
   (c10_truthy_room_emission scenario_no_lab_rooms asg0 subjB 3 6).1⟩

/-- Claim C6 (counterexample).  The two period specs are NOT independently
configurable: with `morning_periods = 2` (an integer count) and
`evening_periods = [2, 3]` (an explicit list), PERIODS = 4, the
normalization ignores the count — the claim's reading would give morning
= [0, 1], but the code falls back to the default morning list because the
count branch requires BOTH values to be ints. -/
theorem c6_mixed_spec_counterexample :
    (normalize_period_lists 4 (PeriodSpec.count 2) (PeriodSpec.idx [2, 3])).1 =
      [0, 1, 2, 3] ∧
    (normalize_period_lists 4 (PeriodSpec.count 2) (PeriodSpec.idx [2, 3])).1 ≠
      [0, 1] := by decide

/-- Claim C6 (amended).  After normalization both lists are sorted with
every index outside `[0, PERIODS)` discarded; the count interpretation
(first N periods morning, next M evening, truncated at PERIODS) applies
only when BOTH raw values are integer counts; an explicit index list is
always honoured (filtered and sorted), while a count paired with a
non-count — and likewise any non-int, non-list value — falls back to that
side's default list (then filtered and sorted). -/
theorem c6_normalization_amended (P : Nat) (rM rE : PeriodSpec) :
    (normalize_period_lists P rM rE).1.Sorted (· ≤ ·) ∧
    (normalize_period_lists P rM rE).2.Sorted (· ≤ ·) ∧
    (∀ x ∈ (normalize_period_lists P rM rE).1, 0 ≤ x ∧ x < (P : Int)) ∧
    (∀ x ∈ (normalize_period_lists P rM rE).2, 0 ≤ x ∧ x < (P : Int)) ∧
    (∀ m e : Int, rM = PeriodSpec.count m → rE = PeriodSpec.count e →
      (normalize_period_lists P rM rE).1 =
        (List.range (min P (Int.toNat (max 0 m)))).map Int.ofNat ∧
      (normalize_period_lists P rM rE).2 =
        (List.range' (min P (Int.toNat (max 0 m)))
          (min P (min P (Int.toNat (max 0 m)) + Int.toNat (max 0 e)) -
            min P (Int.toNat (max 0 m)))).map Int.ofNat) ∧
    (∀ l : List Int, rM = PeriodSpec.idx l →
      (normalize_period_lists P rM rE).1 = sortPeriodIdx P l) ∧
    (∀ l : List Int, rE = PeriodSpec.idx l →
      (normalize_period_lists P rM rE).2 = sortPeriodIdx P l) ∧
    (∀ m : Int, rM = PeriodSpec.count m → (∀ e : Int, rE ≠ PeriodSpec.count e) →
      (normalize_period_lists P rM rE).1 = sortPeriodIdx P defaultMorningList) ∧
    (rM = PeriodSpec.other →
      (normalize_period_lists P rM rE).1 = sortPeriodIdx P defaultMorningList) ∧
    (∀ e : Int, rE = PeriodSpec.count e → (∀ m : Int, rM ≠ PeriodSpec.count m) →
      (normalize_period_lists P rM rE).2 = sortPeriodIdx P defaultEveningList) ∧
    (rE = PeriodSpec.other →
      (normalize_period_lists P rM rE).2 = sortPeriodIdx P defaultEveningList) := by
  have hshape : ∃ lm le, normalize_period_lists P rM rE =
      (sortPeriodIdx P lm, sortPeriodIdx P le) := by
    cases rM <;> cases rE <;> exact ⟨_, _, rfl⟩
  obtain ⟨lm, le, hsh⟩ := hshape
  refine ⟨?_, ?_, ?_, ?_, ?_, ?_, ?_, ?_, ?_, ?_, ?_⟩
  · rw [hsh]; exact sortPeriodIdx_sorted P lm
  · rw [hsh]; exact sortPeriodIdx_sorted P le
  · rw [hsh]; exact fun x hx => sortPeriodIdx_mem hx
  · rw [hsh]; exact fun x hx => sortPeriodIdx_mem hx
  · intro m e hm he
    subst hm; subst he
    simp only [normalize_period_lists]
    constructor
    · exact sortPeriodIdx_range P _ (Nat.min_le_left _ _)
    · exact sortPeriodIdx_range' P _ _ (by omega)
  · intro l hl
    subst hl
    cases rE <;> rfl
  · intro l hl
    subst hl
    cases rM <;> rfl
  · intro m hm hne
    subst hm
    cases rE with
    | count e => exact absurd rfl (hne e)
    | idx l => rfl
    | other => rfl
  · intro hm
    subst hm
    cases rE <;> rfl
  · intro e he hne
    subst he
    cases rM with
    | count m => exact absurd rfl (hne m)
    | idx l => rfl
    | other => rfl
  · intro he
    subst he
    cases rM <;> rfl

/-- Witness for `c6_normalization_amended`: with PERIODS = 8 and both specs
given as the count 4, morning is the first four periods and evening the
next four; with a count 2 morning paired with a list evening (PERIODS = 4)
the morning side falls back to the default list, and with a list morning
paired with a count 3 evening (PERIODS = 5) the evening side falls back to
the default list. -/
theorem c6_normalization_amended_witness :
    ((normalize_period_lists 8 (PeriodSpec.count 4) (PeriodSpec.count 4)).1 =
      (List.range (min 8 (Int.toNat (max 0 4)))).map Int.ofNat ∧
    (normalize_period_lists 8 (PeriodSpec.count 4) (PeriodSpec.count 4)).2 =
      (List.range' (min 8 (Int.toNat (max 0 4)))
        (min 8 (min 8 (Int.toNat (max 0 4)) + Int.toNat (max 0 4)) -
          min 8 (Int.toNat (max 0 4)))).map Int.ofNat) ∧
    (normalize_period_lists 4 (PeriodSpec.count 2) (PeriodSpec.idx [2, 3])).1 =
      sortPeriodIdx 4 defaultMorningList ∧
    (normalize_period_lists 5 (PeriodSpec.idx [1]) (PeriodSpec.count 3)).2 =
      sortPeriodIdx 5 defaultEveningList :=
  ⟨(c6_normalization_amended 8 (PeriodSpec.count 4) (PeriodSpec.count 4)).2.2.2.2.1
      4 4 rfl rfl,
   (c6_normalization_amended 4 (PeriodSpec.count 2)
      (PeriodSpec.idx [2, 3])).2.2.2.2.2.2.2.1 2 rfl
      (fun _ h => PeriodSpec.noConfusion h),
   (c6_normalization_amended 5 (PeriodSpec.idx [1])
      (PeriodSpec.count 3)).2.2.2.2.2.2.2.2.2.1 3 rfl
      (fun _ h => PeriodSpec.noConfusion h)⟩

end Timetable
